import Mathlib

/-!
Verification development for the btc-giftcard backend (Go).

The definitions below are a shallow embedding of the Go source:

* `internal/database/model.go`         — card / transaction data model
* `internal/database/card_repository.go` / `transaction_repository.go` — store
* `internal/card/service.go`           — treasury engine, card service, redemption
* `pkg/cache` (Redis wrapper)          — get / set / setNX / delete
* `pkg/queue` (Redis streams wrapper)  — publish / consume / ack / reclaim
* `internal/queue` (messages)          — FundCard / MonitorTransaction JSON codecs
* `cmd/worker/fund_card/main.go`       — funding worker `processMessage`

Go `int64` amounts are modelled as `Int` (the quantities involved stay far
below 2^63, so wrap-around is irrelevant); timestamps as abstract `Nat`
instants; the Redis key space as a function `String → Option String`.
Effects (store writes, payment attempts, published messages, log lines) are
threaded explicitly through a `World` record.
-/

set_option maxHeartbeats 1000000
set_option maxRecDepth 1000000

namespace BtcGiftcard

/-- Lifecycle state of a gift card (`internal/database/model.go`, `CardStatus`). -/
inductive CardStatus where
  | created
  | funding
  | active
  | redeemed
  | expired
deriving DecidableEq

/-- Kind of a ledger transaction (`internal/database/model.go`, `TransactionType`). -/
inductive TransactionType where
  | fund
  | redeem
  | payment
deriving DecidableEq

/-- State of a ledger transaction (`internal/database/model.go`, `TransactionStatus`). -/
inductive TransactionStatus where
  | pending
  | confirmed
  | failed
deriving DecidableEq

/-- A gift card row (`internal/database/model.go`, `Card`). -/
structure Card where
  id : String
  userID : Option String
  purchaseEmail : String
  ownerEmail : String
  code : String
  btcAmountSats : Int
  fiatAmountCents : Int
  fiatCurrency : String
  purchasePriceCents : Int
  status : CardStatus
  createdAt : Nat
  fundedAt : Option Nat
  redeemedAt : Option Nat
deriving DecidableEq

/-- An in-memory transaction record (`internal/database/model.go`, `Transaction`). -/
structure Transaction where
  id : String
  cardID : String
  typ : TransactionType
  redemptionMethod : Option String
  txHash : Option String
  paymentHash : Option String
  paymentPreimage : Option String
  lightningInvoice : Option String
  fromAddress : Option String
  toAddress : Option String
  btcAmountSats : Int
  status : TransactionStatus
  confirmations : Int
  createdAt : Nat
  broadcastAt : Option Nat
  confirmedAt : Option Nat
deriving DecidableEq

/-- A persisted row of the `transactions` table, one field per schema column.
`TransactionRepository.Create` (`internal/database/transaction_repository.go`)
lists exactly twelve columns in its INSERT; every column it omits is stored as
its SQL default, NULL. -/
structure TransactionRow where
  id : String
  cardID : String
  typ : TransactionType
  redemptionMethod : Option String
  txHash : Option String
  paymentHash : Option String
  paymentPreimage : Option String
  lightningInvoice : Option String
  fromAddress : Option String
  toAddress : Option String
  btcAmountSats : Int
  status : TransactionStatus
  confirmations : Int
  createdAt : Nat
  broadcastAt : Option Nat
  confirmedAt : Option Nat
deriving DecidableEq

/-- The INSERT of `TransactionRepository.Create`: the twelve listed columns are
taken from the record, the four columns absent from the statement
(`redemption_method`, `payment_hash`, `payment_preimage`, `lightning_invoice`)
default to NULL in the stored row. -/
def transactionRepositoryCreateRow (tx : Transaction) : TransactionRow :=
  { id := tx.id
    cardID := tx.cardID
    typ := tx.typ
    redemptionMethod := none
    txHash := tx.txHash
    paymentHash := none
    paymentPreimage := none
    lightningInvoice := none
    fromAddress := tx.fromAddress
    toAddress := tx.toAddress
    btcAmountSats := tx.btcAmountSats
    status := tx.status
    confirmations := tx.confirmations
    createdAt := tx.createdAt
    broadcastAt := tx.broadcastAt
    confirmedAt := tx.confirmedAt }

/-- Log severities of `pkg/logger`. -/
inductive LogLevel where
  | debug
  | info
  | warn
  | error
  | fatal
deriving DecidableEq

/-- A structured log line. -/
structure LogEntry where
  level : LogLevel
  msg : String
deriving DecidableEq

/-- Error values of the Go code, one constructor per distinct error. -/
inductive GoError where
  | cardNotFound
  | cardNotActive
  | insufficientFunds
  | insufficientBalance
  | treasuryLockBusy
  | cardLockBusy
  | invalidMethod
  | invalidAddress
  | lightningInvoiceRequired
  | amountNotPositive
  | invalidMessage (e : String)
  | onChainBelowMinimum
  | other (e : String)
deriving DecidableEq

/-! ## Cache (`pkg/cache`, Redis wrapper) -/

/-- The Redis key space, one optional string value per key. -/
def CacheStore : Type := String → Option String

/-- Store update: `SET key value`. -/
def CacheStore.insert (s : CacheStore) (k v : String) : CacheStore :=
  fun k' => if k' = k then some v else s k'

/-- Store update: `DEL key`. -/
def CacheStore.erase (s : CacheStore) (k : String) : CacheStore :=
  fun k' => if k' = k then none else s k'

/-- Result of the underlying `redis.Client.Get` call: the `redis.Nil` reply for
an absent key, a transport error, or the stored value. -/
inductive RedisGetResult where
  | nilReply
  | errReply (e : String)
  | valReply (v : String)
deriving DecidableEq

/-- What the Redis client answers for `GET k` against store `s` (no transport
fault in the model; a transport fault is an arbitrary `errReply`). -/
def redisGet (s : CacheStore) (k : String) : RedisGetResult :=
  match s k with
  | none => .nilReply
  | some v => .valReply v

/-- Function `Get` of `pkg/cache`: maps `redis.Nil` to `("", nil)`, a transport
error to `("", err)` and a value to `(val, nil)`. -/
def cacheGet (r : RedisGetResult) : String × Option String :=
  match r with
  | .nilReply => ("", none)
  | .errReply e => ("", some e)
  | .valReply v => (v, none)

/-- Function `SetNX` of `pkg/cache` over a store: returns whether the key was
set (true) or already held (false), together with the updated store. -/
def cacheSetNX (s : CacheStore) (k v : String) : Bool × CacheStore :=
  match s k with
  | some _ => (false, s)
  | none => (true, s.insert k v)

/-! ## Treasury engine (`internal/card/service.go`) -/

/-- Cache key for the available-treasury value (`treasuryAvailableCacheKey`). -/
def treasuryAvailableCacheKey : String := "treasury:available_sats"

/-- Key of the global treasury reservation lock (`treasuryLockKey`). -/
def treasuryLockKey : String := "treasury:lock"

/-- Lightning channel balance as read from LND (`lnd.ChannelBalance`). -/
structure ChannelBalance where
  localSats : Int
  remoteSats : Int
deriving DecidableEq

/-- On-chain wallet balance as read from LND (`lnd.WalletBalance`). -/
structure WalletBalance where
  confirmedSats : Int
  unconfirmedSats : Int
  totalSats : Int
deriving DecidableEq

/-- `CardRepository.GetTotalReservedBalance`: the SQL
`SELECT COALESCE(SUM(btc_amount_sats), 0) FROM cards WHERE status IN ('active', 'funding')`
over the card table. -/
def getTotalReservedBalance (cards : List Card) : Int :=
  ((cards.filter fun c =>
      c.status = CardStatus.active ∨ c.status = CardStatus.funding).map
    fun c => c.btcAmountSats).sum

/-- `Service.computeTreasuryBalance`: LND channel and wallet reads are passed in
as their (possibly failed) results; on success the available balance is the
treasury total minus the reserved sum, and a negative result is refused with
`ErrInsufficientBalance` plus an error-severity log line. -/
def computeTreasuryBalance (channelBal : Except String ChannelBalance)
    (walletBal : Except String WalletBalance) (cards : List Card) :
    Except GoError Int × List LogEntry :=
  match channelBal with
  | .error e => (.error (.other e), [])
  | .ok cb =>
    match walletBal with
    | .error e => (.error (.other e), [])
    | .ok wb =>
      let totalTreasury := cb.localSats + wb.confirmedSats
      let totalReserved := getTotalReservedBalance cards
      let available := totalTreasury - totalReserved
      if available < 0 then
        (.error .insufficientBalance,
          [{ level := .error, msg := "treasury oversold: available balance is negative" }])
      else
        (.ok available, [])

/-- Fall-through path of `Service.GetTreasuryAvailableBalance`: recompute the
balance and cache the result under the treasury key on success. -/
def treasuryComputeAndCache (store : CacheStore)
    (channelBal : Except String ChannelBalance)
    (walletBal : Except String WalletBalance) (cards : List Card) :
    Except GoError Int × CacheStore × List LogEntry :=
  match computeTreasuryBalance channelBal walletBal cards with
  | (.error e, logs) => (.error e, store, logs)
  | (.ok available, logs) =>
    (.ok available, store.insert treasuryAvailableCacheKey (toString available), logs)

/-- `Service.GetTreasuryAvailableBalance`: try the cache first; a non-empty
error-free read that parses as an integer (`strconv.ParseInt`, modelled by
`String.toInt?`) is returned directly, anything else falls through to
`computeTreasuryBalance`, whose result is cached on success. -/
def getTreasuryAvailableBalance (store : CacheStore)
    (channelBal : Except String ChannelBalance)
    (walletBal : Except String WalletBalance) (cards : List Card) :
    Except GoError Int × CacheStore × List LogEntry :=
  let hit := cacheGet (redisGet store treasuryAvailableCacheKey)
  if hit.2 = none ∧ hit.1 ≠ "" then
    match hit.1.toInt? with
    | some v => (.ok v, store, [])
    | none => treasuryComputeAndCache store channelBal walletBal cards
  else
    treasuryComputeAndCache store channelBal walletBal cards

/-- `Service.InvalidateTreasuryCache`: delete the cached treasury value. -/
def invalidateTreasuryCache (store : CacheStore) : CacheStore :=
  store.erase treasuryAvailableCacheKey

/-! ## Card code generation (`Service.generateCardCode`) -/

/-- The character set of `generateCardCode`, visually ambiguous characters
(O, 0, I, 1, L) excluded. -/
def charset : String := "ABCDEFGHJKMNPQRSTUVWXYZ23456789"

/-- The character set as a list of characters. -/
def charsetChars : List Char := charset.data

theorem charsetChars_length : charsetChars.length = 31 := by decide

/-- One step of the mapping loop `code[i] = charset[int(code[i])%len(charset)]`. -/
def charsetChar (b : Nat) : Char :=
  charsetChars.get ⟨b % 31, by rw [charsetChars_length]; exact Nat.mod_lt _ (by norm_num)⟩

/-- Character list of the generated code string: the first three quartets of the
mapped random bytes joined with dashes after the `GIFT-` prefix, exactly the
`fmt.Sprintf("GIFT-%s-%s-%s", codeStr[0:4], codeStr[4:8], codeStr[8:12])`
of the source. -/
def codeCharsOf (bytes : List Nat) : List Char :=
  let cs := bytes.map charsetChar
  ['G', 'I', 'F', 'T', '-'] ++ cs.take 4 ++ ['-'] ++ ((cs.drop 4).take 4) ++ ['-']
    ++ ((cs.drop 8).take 4)

/-- The code string produced by one attempt of `Service.generateCardCode` from
the 16 random bytes delivered by `crypto/rand`. -/
def generateCardCode (bytes : List Nat) : String :=
  String.mk (codeCharsOf bytes)

/-! ## Stream messages (`internal/queue/messages.go`) -/

/-- A JSON scalar as used by the two message payloads. -/
inductive JValue where
  | str (s : String)
  | num (n : Int)
deriving DecidableEq

/-- A JSON object: key/value pairs in serialization order. -/
def JObject : Type := List (String × JValue)

/-- Key lookup in a JSON object. -/
def JObject.find (o : JObject) (k : String) : Option JValue :=
  match o with
  | [] => none
  | (k', v) :: rest => if k' = k then some v else JObject.find rest k

/-- Go `encoding/json` unmarshalling of a string-typed struct field: an absent
key leaves the zero value `""`, a key of the wrong JSON type is an error. -/
def getStringField (o : JObject) (k : String) : Except String String :=
  match o.find k with
  | none => .ok ""
  | some (.str s) => .ok s
  | some (.num _) => .error ("cannot unmarshal number into string field " ++ k)

/-- Go `encoding/json` unmarshalling of an int64-typed struct field: an absent
key leaves the zero value `0`, a key of the wrong JSON type is an error. -/
def getIntField (o : JObject) (k : String) : Except String Int :=
  match o.find k with
  | none => .ok 0
  | some (.num n) => .ok n
  | some (.str _) => .error ("cannot unmarshal string into int64 field " ++ k)

/-- `FundCardMessage` (`internal/queue/messages.go`). -/
structure FundCardMessage where
  cardID : String
  fiatAmountCents : Int
  fiatCurrency : String
deriving DecidableEq

/-- `FundCardMessage.Validate`. -/
def FundCardMessage.validate (m : FundCardMessage) : Except String Unit :=
  if m.cardID = "" then .error "card_id is required"
  else if m.fiatAmountCents ≤ 0 then .error "fiat_amount_cents must be greater than 0"
  else if m.fiatCurrency = "" then .error "fiat_currency is required"
  else if m.fiatCurrency.length ≠ 3 then .error "fiat_currency must be 3 characters"
  else .ok ()

/-- `FundCardMessage.ToJSON`: `json.Marshal` emits the tagged fields in struct
order. -/
def FundCardMessage.toJSON (m : FundCardMessage) : JObject :=
  [("card_id", .str m.cardID),
   ("fiat_amount_cents", .num m.fiatAmountCents),
   ("fiat_currency", .str m.fiatCurrency)]

/-- `FromJSONFundCard`: unmarshal the three tagged fields (unknown keys are
ignored by `encoding/json`), then validate. -/
def fromJSONFundCard (o : JObject) : Except String FundCardMessage :=
  match getStringField o "card_id" with
  | .error e => .error e
  | .ok cardID =>
    match getIntField o "fiat_amount_cents" with
    | .error e => .error e
    | .ok cents =>
      match getStringField o "fiat_currency" with
      | .error e => .error e
      | .ok currency =>
        let m : FundCardMessage :=
          { cardID := cardID, fiatAmountCents := cents, fiatCurrency := currency }
        match m.validate with
        | .error e => .error e
        | .ok _ => .ok m

/-- Character predicate of Go `encoding/hex`: `0-9`, `a-f`, `A-F`. -/
def isHexChar (c : Char) : Bool :=
  (('0' ≤ c ∧ c ≤ '9') ∨ ('a' ≤ c ∧ c ≤ 'f') ∨ ('A' ≤ c ∧ c ≤ 'F') : Prop)

/-- Whether `hex.DecodeString` succeeds: even length, all characters hex. -/
def hexDecodable (s : String) : Bool :=
  s.length % 2 = 0 && s.data.all isHexChar

/-- `MonitorTransactionMessage` (`internal/queue/messages.go`). -/
structure MonitorTransactionMessage where
  cardID : String
  txHash : String
  expectedAmountSats : Int
  destinationAddr : String
deriving DecidableEq

/-- `MonitorTransactionMessage.Validate`. -/
def MonitorTransactionMessage.validate (m : MonitorTransactionMessage) : Except String Unit :=
  if m.cardID = "" then .error "card_id is required"
  else if m.txHash = "" then .error "tx_hash is required"
  else if m.txHash.length ≠ 64 then .error "tx_hash must be 64 characters"
  else if ¬hexDecodable m.txHash then .error "tx_hash must be valid hexadecimal"
  else if m.expectedAmountSats ≤ 0 then .error "expected_amount_sats must be greater than 0"
  else if m.destinationAddr = "" then .error "destination_addr is required"
  else .ok ()

/-- `MonitorTransactionMessage.ToJSON`. -/
def MonitorTransactionMessage.toJSON (m : MonitorTransactionMessage) : JObject :=
  [("card_id", .str m.cardID),
   ("tx_hash", .str m.txHash),
   ("expected_amount_sats", .num m.expectedAmountSats),
   ("destination_addr", .str m.destinationAddr)]

/-- `FromJSONMonitorTx`: unmarshal the four tagged fields, then validate. -/
def fromJSONMonitorTx (o : JObject) : Except String MonitorTransactionMessage :=
  match getStringField o "card_id" with
  | .error e => .error e
  | .ok cardID =>
    match getStringField o "tx_hash" with
    | .error e => .error e
    | .ok txHash =>
      match getIntField o "expected_amount_sats" with
      | .error e => .error e
      | .ok sats =>
        match getStringField o "destination_addr" with
        | .error e => .error e
        | .ok dest =>
          let m : MonitorTransactionMessage :=
            { cardID := cardID, txHash := txHash, expectedAmountSats := sats,
              destinationAddr := dest }
          match m.validate with
          | .error e => .error e
          | .ok _ => .ok m

/-! ## Stream bus (`pkg/queue`, `StreamQueue.handleMessage`) -/

/-- A value in a Redis stream entry: Go sees `interface\x7b\x7d` and the code
distinguishes only string from non-string. -/
inductive StreamVal where
  | str (s : String)
  | nonStr
deriving DecidableEq

/-- A delivered stream entry (`redis.XMessage`). -/
structure XMessage where
  id : String
  values : List (String × StreamVal)
deriving DecidableEq

/-- Field lookup in the entry's value map. -/
def XMessage.find (m : XMessage) (k : String) : Option StreamVal :=
  (m.values.find? fun p => p.1 = k).map Prod.snd

/-- The consumer group's view of one delivered message: the pending entry list
and the acknowledged ids. A delivered, unacknowledged message sits in
`pending`; `XACK` moves it out. -/
structure GroupState where
  pending : List String
  acked : List String
deriving DecidableEq

/-- `XACK`: remove the entry from the pending list, record the ack. -/
def xAck (g : GroupState) (msgID : String) : GroupState :=
  { pending := g.pending.erase msgID, acked := g.acked ++ [msgID] }

/-- `StreamQueue.handleMessage`: a message without a `data` field (or with a
non-string one) is logged and acknowledged; otherwise the handler runs and the
message is acknowledged exactly when the handler returns success. -/
def handleMessage (g : GroupState) (msg : XMessage)
    (handler : String → String → Except String Unit) : GroupState × List LogEntry :=
  match msg.find "data" with
  | none => (xAck g msg.id, [{ level := .error, msg := "Message missing data field" }])
  | some .nonStr => (xAck g msg.id, [{ level := .error, msg := "Message data field is not a string" }])
  | some (.str s) =>
    match handler msg.id s with
    | .ok _ =>
      (xAck g msg.id,
        [{ level := .info, msg := "Processing message" },
         { level := .info, msg := "Message processed successfully" }])
    | .error _ =>
      (g,
        [{ level := .info, msg := "Processing message" },
         { level := .error, msg := "Handler failed to process message" }])

/-! ## LND client results (`internal/lnd/lightning.go`) -/

/-- Terminal and non-terminal payment states (`PaymentResultStatus`). -/
inductive PaymentResultStatus where
  | succeeded
  | failed
  | inflight
deriving DecidableEq

/-- `lnd.PaymentResult`. -/
structure PaymentResult where
  paymentHash : String
  paymentPreimage : String
  feeSats : Int
  status : PaymentResultStatus
deriving DecidableEq

/-- `lnd.Invoice` as returned by `DecodeInvoice`. -/
structure Invoice where
  destination : String
  amountSats : Int
  paymentHash : String
  expiry : Int
  description : String
  isExpired : Bool
deriving DecidableEq

/-- `lnd.OnChainResult`. -/
structure OnChainResult where
  txHash : String
deriving DecidableEq

/-- The external node and address validator as an oracle: each RPC's outcome as
a function of its arguments. The card service only consumes these results. -/
structure LndOracle where
  decodeInvoice : String → Except String Invoice
  payInvoice : String → Int → Except String PaymentResult
  sendOnChain : String → Int → Int → Except String OnChainResult
  validateAddress : String → String → Except String Bool

/-! ## World state threaded through the service and the workers -/

/-- Mutable state touched by the card service and workers: the card table, the
transaction table (as persisted rows), the Redis key space, the payment
attempts made against the node (one entry per `PayInvoice` / `SendOnChain`
call), and the monitor messages published to the `monitor_tx` stream. -/
structure World where
  cards : List Card
  txRows : List TransactionRow
  cache : CacheStore
  payAttempts : List String
  monitorMsgs : List MonitorTransactionMessage

/-- `CardRepository.GetByCode` (via `Service.GetCardByCode`). -/
def getCardByCode (cards : List Card) (code : String) : Except GoError Card :=
  match cards.find? fun c => c.code = code with
  | none => .error .cardNotFound
  | some c => .ok c

/-- `CardRepository.GetByID`. -/
def getCardByID (cards : List Card) (id : String) : Except GoError Card :=
  match cards.find? fun c => c.id = id with
  | none => .error .cardNotFound
  | some c => .ok c

/-- `CardRepository.Update`: sets the status, and COALESCEs the optional
balance and timestamps onto the existing row; an unknown id is
`ErrCardNotFound`. -/
def cardRepositoryUpdate (cards : List Card) (id : String) (status : CardStatus)
    (sats : Option Int) (fundedAt redeemedAt : Option Nat) : Except GoError (List Card) :=
  if cards.any fun c => c.id = id then
    .ok (cards.map fun c =>
      if c.id = id then
        { c with status := status,
                 btcAmountSats := sats.getD c.btcAmountSats,
                 fundedAt := fundedAt <|> c.fundedAt,
                 redeemedAt := redeemedAt <|> c.redeemedAt }
      else c)
  else
    .error .cardNotFound

/-! ## Redemption (`Service.RedeemCard` and helpers) -/

/-- Redemption method (`RedeemCardMethod`). -/
inductive RedeemCardMethod where
  | onchain
  | lightning
deriving DecidableEq

/-- String value of the method, as stored in `redemption_method`. -/
def RedeemCardMethod.asString : RedeemCardMethod → String
  | .onchain => "onchain"
  | .lightning => "lightning"

/-- `RedeemCardRequest`. -/
structure RedeemCardRequest where
  code : String
  method : RedeemCardMethod
  amountSats : Int
  destinationAddress : String
  lightningInvoice : String
deriving DecidableEq

/-- `RedeemCardResponse`. -/
structure RedeemCardResponse where
  transactionID : String
  method : String
  txHash : Option String
  paymentHash : Option String
  btcAmountSats : Int
  remainingBalance : Int
  status : TransactionStatus
deriving DecidableEq

/-- `Service.validateRedeemRequest`: method-specific required field, then the
positive-amount check. -/
def validateRedeemRequest (req : RedeemCardRequest) : Except GoError Unit :=
  match req.method with
  | .lightning =>
    if req.lightningInvoice = "" then .error .lightningInvoiceRequired
    else if req.amountSats ≤ 0 then .error .amountNotPositive
    else .ok ()
  | .onchain =>
    if req.destinationAddress = "" then .error .invalidAddress
    else if req.amountSats ≤ 0 then .error .amountNotPositive
    else .ok ()

/-- `Service.validateCardForRedemption`: load by code, require `active` state
and sufficient balance. -/
def validateCardForRedemption (cards : List Card) (code : String) (amountSats : Int) :
    Except GoError Card :=
  match getCardByCode cards code with
  | .error e => .error e
  | .ok card =>
    if card.status ≠ CardStatus.active then .error .cardNotActive
    else if amountSats > card.btcAmountSats then .error .insufficientFunds
    else .ok card

/-- The unified payment result (`paymentOutput` in `service.go`). -/
structure PaymentOutput where
  paymentHash : Option String
  paymentPreimage : Option String
  txHash : Option String
  toAddress : Option String
  invoice : Option String
  status : TransactionStatus
  confirmedAt : Option Nat
deriving DecidableEq

/-- `Service.executeLightningPayment`: decode and validate the invoice, pay it,
require the `succeeded` terminal status. The second component lists the
payment attempts made against the node (the `PayInvoice` call, once reached). -/
def executeLightningPayment (oracle : LndOracle) (maxFeeSats : Int) (now : Nat)
    (invoice : String) (amountSats : Int) : Except GoError PaymentOutput × List String :=
  match oracle.decodeInvoice invoice with
  | .error e => (.error (.other ("invalid invoice: " ++ e)), [])
  | .ok decoded =>
    if decoded.amountSats = 0 then
      (.error (.other "zero-amount invoices not supported"), [])
    else if decoded.isExpired then
      (.error (.other "invoice has expired"), [])
    else if decoded.amountSats ≠ amountSats then
      (.error (.other "invoice amount does not match requested amount"), [])
    else
      match oracle.payInvoice invoice maxFeeSats with
      | .error e => (.error (.other ("lightning payment failed: " ++ e)), [invoice])
      | .ok result =>
        if result.status ≠ PaymentResultStatus.succeeded then
          (.error (.other "lightning payment did not succeed"), [invoice])
        else
          (.ok { paymentHash := some result.paymentHash,
                 paymentPreimage := some result.paymentPreimage,
                 txHash := none,
                 toAddress := none,
                 invoice := some invoice,
                 status := .confirmed,
                 confirmedAt := some now }, [invoice])

/-- `Service.executeOnChainPayment`: validate the address for the configured
network, enforce the 10 000-sat minimum, send with target 6 confirmations. -/
def executeOnChainPayment (oracle : LndOracle) (network : String)
    (address : String) (amountSats : Int) : Except GoError PaymentOutput × List String :=
  match oracle.validateAddress address network with
  | .error e => (.error (.other ("failed to validate address: " ++ e)), [])
  | .ok false => (.error .invalidAddress, [])
  | .ok true =>
    if amountSats < 10000 then
      (.error .onChainBelowMinimum, [])
    else
      match oracle.sendOnChain address amountSats 6 with
      | .error e => (.error (.other ("on-chain send failed: " ++ e)), [address])
      | .ok result =>
        (.ok { paymentHash := none,
               paymentPreimage := none,
               txHash := some result.txHash,
               toAddress := some address,
               invoice := none,
               status := .pending,
               confirmedAt := none }, [address])

/-- `Service.executePayment`: dispatch on the method. -/
def executePayment (oracle : LndOracle) (network : String) (maxFeeSats : Int)
    (now : Nat) (req : RedeemCardRequest) : Except GoError PaymentOutput × List String :=
  match req.method with
  | .lightning => executeLightningPayment oracle maxFeeSats now req.lightningInvoice req.amountSats
  | .onchain => executeOnChainPayment oracle network req.destinationAddress req.amountSats

/-- `Service.recordRedemptionTransaction`: the in-memory `Transaction` record
built for the redemption (before the repository persists it). -/
def recordRedemptionTransaction (freshTxID cardID : String) (req : RedeemCardRequest)
    (pay : PaymentOutput) (now : Nat) : Transaction :=
  { id := freshTxID,
    cardID := cardID,
    typ := .redeem,
    redemptionMethod := some req.method.asString,
    txHash := pay.txHash,
    paymentHash := pay.paymentHash,
    paymentPreimage := pay.paymentPreimage,
    lightningInvoice := pay.invoice,
    fromAddress := none,
    toAddress := pay.toAddress,
    btcAmountSats := req.amountSats,
    status := pay.status,
    confirmations := 0,
    createdAt := now,
    broadcastAt := some now,
    confirmedAt := pay.confirmedAt }

/-- `Service.updateCardBalance`: deduct the spend, flip to `redeemed` with a
`redeemed_at` stamp exactly when the remainder is zero. -/
def updateCardBalance (cards : List Card) (now : Nat) (cardID : String)
    (currentBalance spendAmount : Int) : Except GoError (Int × List Card) :=
  let remaining := currentBalance - spendAmount
  let status := if remaining = 0 then CardStatus.redeemed else CardStatus.active
  let redeemedAt : Option Nat := if remaining = 0 then some now else none
  match cardRepositoryUpdate cards cardID status (some remaining) none redeemedAt with
  | .error e => .error e
  | .ok cards' => .ok (remaining, cards')

/-- Key of the per-card redemption lock (`cardLockPrefix + code`). -/
def cardLockKey (code : String) : String := "card:lock:" ++ code

/-- `Service.RedeemCard`: the full redemption flow over the world state —
input validation, per-card lock, card validation, payment, transaction record,
balance debit, treasury-cache invalidation, monitor publish for on-chain, and
the deferred lock release on every exit path past acquisition. -/
def redeemCard (oracle : LndOracle) (network : String) (maxFeeSats : Int)
    (now : Nat) (freshTxID : String) (w : World) (req : RedeemCardRequest) :
    Except GoError RedeemCardResponse × World :=
  match validateRedeemRequest req with
  | .error e => (.error e, w)
  | .ok _ =>
    let lockKey := cardLockKey req.code
    match cacheSetNX w.cache lockKey "locked" with
    | (false, _) => (.error .cardLockBusy, w)
    | (true, cache1) =>
      let w1 : World := { w with cache := cache1 }
      match validateCardForRedemption w1.cards req.code req.amountSats with
      | .error e => (.error e, { w1 with cache := w1.cache.erase lockKey })
      | .ok card =>
        match executePayment oracle network maxFeeSats now req with
        | (.error e, attempts) =>
          (.error e, { w1 with payAttempts := w1.payAttempts ++ attempts,
                               cache := w1.cache.erase lockKey })
        | (.ok pay, attempts) =>
          let w2 : World := { w1 with payAttempts := w1.payAttempts ++ attempts }
          let tx := recordRedemptionTransaction freshTxID card.id req pay now
          let w3 : World := { w2 with txRows := w2.txRows ++ [transactionRepositoryCreateRow tx] }
          match updateCardBalance w3.cards now card.id card.btcAmountSats req.amountSats with
          | .error e => (.error e, { w3 with cache := w3.cache.erase lockKey })
          | .ok (remaining, cards') =>
            let w4 : World := { w3 with cards := cards',
                                        cache := invalidateTreasuryCache w3.cache }
            let w5 : World :=
              if req.method = RedeemCardMethod.onchain then
                match pay.txHash with
                | some h =>
                  { w4 with monitorMsgs := w4.monitorMsgs ++
                      [{ cardID := card.id, txHash := h,
                         expectedAmountSats := req.amountSats,
                         destinationAddr := req.destinationAddress }] }
                | none => w4
              else w4
            (.ok { transactionID := tx.id,
                   method := req.method.asString,
                   txHash := pay.txHash,
                   paymentHash := pay.paymentHash,
                   btcAmountSats := req.amountSats,
                   remainingBalance := remaining,
                   status := tx.status },
             { w5 with cache := w5.cache.erase lockKey })

/-! ## Funding worker (`cmd/worker/fund_card/main.go`, `processMessage`) -/

/-- Number of binary digits of `n`, with explicit fuel so the recursion is
structural. Exact whenever `n < 2^fuel`; every quantity in the worker's
pipeline is far below `2^600` (cents are int64, significands are 53-bit). -/
def bitLen : Nat → Nat → Nat
  | 0, _ => 0
  | fuel + 1, n => if n = 0 then 0 else bitLen fuel (n / 2) + 1

/-- IEEE-754 binary64 rounding of the positive rational `a / b` to a 53-bit
significand, round-to-nearest ties-to-even, unbounded exponent (the worker's
value range reaches neither overflow nor subnormals). Returns `(m, e)`
standing for `m * 2^e`: the scale `s` puts `(a / b) * 2^s` into
`[2^52, 2^53)` (one correction step after the first estimate from the bit
lengths), then the shifted quotient is rounded from its remainder. -/
def roundPos (a b : Nat) : Nat × Int :=
  if a = 0 ∨ b = 0 then (0, 0)
  else
    let la : Int := bitLen 600 a
    let lb : Int := bitLen 600 b
    let s : Int := 53 + lb - la
    let n : Nat := if 0 ≤ s then a * 2 ^ s.toNat else a
    let d : Nat := if 0 ≤ s then b else b * 2 ^ (-s).toNat
    let d1 : Nat := if 2 ^ 53 ≤ n / d then d * 2 else d
    let s1 : Int := if 2 ^ 53 ≤ n / d then s - 1 else s
    let q : Nat := n / d1
    let r : Nat := n % d1
    let rounded : Nat :=
      if d1 < 2 * r then q + 1
      else if 2 * r < d1 then q
      else if q % 2 = 0 then q else q + 1
    (rounded, -s1)

/-- A nonnegative IEEE-754 binary64 value `m * 2^e`; the sign of the worker's
single signed quantity is handled at the use site, and binary64 rounding is
sign-symmetric. -/
structure F64 where
  m : Nat
  e : Int
deriving DecidableEq

/-- The conversion `float64(n)` of a nonnegative integer (exact below
`2^53`, rounded above). -/
def f64OfNat (n : Nat) : F64 :=
  if n = 0 then ⟨0, 0⟩ else ⟨(roundPos n 1).1, (roundPos n 1).2⟩

/-- binary64 division of nonnegative doubles. -/
def f64Div (x y : F64) : F64 :=
  if x.m = 0 ∨ y.m = 0 then ⟨0, 0⟩
  else ⟨(roundPos x.m y.m).1, (roundPos x.m y.m).2 + x.e - y.e⟩

/-- binary64 multiplication of nonnegative doubles. -/
def f64Mul (x y : F64) : F64 :=
  if x.m = 0 ∨ y.m = 0 then ⟨0, 0⟩
  else ⟨(roundPos (x.m * y.m) 1).1, (roundPos (x.m * y.m) 1).2 + x.e + y.e⟩

/-- Go `int64(x)` on a nonnegative double: truncation toward zero. -/
def f64TruncToNat (x : F64) : Nat :=
  if 0 ≤ x.e then x.m * 2 ^ x.e.toNat else x.m / 2 ^ (-x.e).toNat

/-- The worker's satoshi computation
`satoshis := int64(float64(cents) / 100.0 / price * 100_000_000)`, evaluated
step by step in IEEE-754 binary64 arithmetic; `price` is the double the
provider returned. A negative cents value negates the magnitude pipeline
(rounding and truncation are sign-symmetric). -/
def satsFromFiat (fiatAmountCents : Int) (price : F64) : Int :=
  let mag : Int :=
    (f64TruncToNat (f64Mul (f64Div (f64Div (f64OfNat fiatAmountCents.natAbs)
      (f64OfNat 100)) price) (f64OfNat 100000000)) : Nat)
  if fiatAmountCents < 0 then -mag else mag

/-- `messageHandler.processMessage`: deserialize and validate, load the card,
skip unless `created`, lease via the `funding` state, price the order, compute
satoshis (ack as permanent failure when non-positive), then activate the card
and insert the `fund` transaction. A `.ok` result means the bus acknowledges
the message; an `.error` leaves it pending. The treasury check described in
the worker's comment block is absent from the executable code, and the
function performs no cache operation at all. -/
def processMessage (priceResult : Except String F64) (now : Nat) (freshTxID : String)
    (w : World) (data : JObject) : Except GoError Unit × World :=
  match fromJSONFundCard data with
  | .error e => (.error (.invalidMessage e), w)
  | .ok msg =>
    match getCardByID w.cards msg.cardID with
    | .error e => (.error e, w)
    | .ok card =>
      if card.status ≠ CardStatus.created then
        (.ok (), w)
      else
        match cardRepositoryUpdate w.cards card.id CardStatus.funding none none none with
        | .error e => (.error e, w)
        | .ok cards1 =>
          let w1 : World := { w with cards := cards1 }
          match priceResult with
          | .error e => (.error (.other ("error fetching BTC price: " ++ e)), w1)
          | .ok price =>
            let satoshis := satsFromFiat msg.fiatAmountCents price
            if satoshis ≤ 0 then
              (.ok (), w1)
            else
              match cardRepositoryUpdate w1.cards card.id CardStatus.active
                  (some satoshis) (some now) none with
              | .error e => (.error e, w1)
              | .ok cards2 =>
                let w2 : World := { w1 with cards := cards2 }
                let tx : Transaction :=
                  { id := freshTxID,
                    cardID := card.id,
                    typ := .fund,
                    redemptionMethod := none,
                    txHash := none,
                    paymentHash := none,
                    paymentPreimage := none,
                    lightningInvoice := none,
                    fromAddress := none,
                    toAddress := none,
                    btcAmountSats := satoshis,
                    status := .confirmed,
                    confirmations := 0,
                    createdAt := now,
                    broadcastAt := none,
                    confirmedAt := some now }
                (.ok (), { w2 with txRows := w2.txRows ++ [transactionRepositoryCreateRow tx] })

/-! ## Shared helper lemmas -/

/-- Every character the mapping step can produce lies in the character set. -/
theorem charsetChar_mem (b : Nat) : charsetChar b ∈ charsetChars :=
  List.get_mem _ _ _

/-- No character of the set is visually ambiguous. -/
theorem charsetChars_no_ambiguous :
    ∀ c ∈ charsetChars, c ∉ (['O', '0', 'I', '1', 'L'] : List Char) := by decide

/-- The worked example of the spec: 10 000 cents at the double 67 000 per BTC
compute to 149 253 sats (here the binary64 chain and the exact value agree). -/
theorem satsFromFiat_example : satsFromFiat 10000 ⟨67000, 0⟩ = 149253 := by decide

/-- Erasing a freshly inserted key restores a store that did not hold it. -/
theorem cacheErase_insert (s : CacheStore) (k v : String) (h : s k = none) :
    (s.insert k v).erase k = s := by
  funext k'
  by_cases hk : k' = k
  · simp [CacheStore.erase, CacheStore.insert, hk, h.symm]
  · simp [CacheStore.erase, CacheStore.insert, hk]

/-! ## C3 — card code shape -/

/-- Claim C3 (counterexample): a generated code carries twelve, not sixteen,
characters after the `GIFT-` prefix once dashes are ignored — at the all-zero
random bytes the code is `GIFT-AAAA-AAAA-AAAA`. -/
theorem generateCardCode_not_sixteen_chars :
    generateCardCode (List.replicate 16 0) = "GIFT-AAAA-AAAA-AAAA" ∧
    (((generateCardCode (List.replicate 16 0)).data.drop 5).filter
      fun c => c ≠ '-').length = 12 ∧
    ¬(((generateCardCode (List.replicate 16 0)).data.drop 5).filter
      fun c => c ≠ '-').length = 16 := by
  refine ⟨by decide, by decide, by decide⟩

/-- Claim C3 (amended): every code generated by `generateCardCode` from 16
random bytes is the `GIFT-` prefix followed by three dash-separated quartets;
the twelve quartet characters are drawn from the 31-character unambiguous set
and none of them is `O`, `0`, `I`, `1` or `L`. -/
theorem generateCardCode_quartets_charset (bytes : List Nat) (h : bytes.length = 16) :
    ∃ q1 q2 q3 : List Char,
      (generateCardCode bytes).data
        = ['G', 'I', 'F', 'T', '-'] ++ q1 ++ ['-'] ++ q2 ++ ['-'] ++ q3 ∧
      q1.length = 4 ∧ q2.length = 4 ∧ q3.length = 4 ∧
      (∀ c ∈ q1 ++ q2 ++ q3, c ∈ charsetChars) ∧
      (∀ c ∈ q1 ++ q2 ++ q3, c ∉ (['O', '0', 'I', '1', 'L'] : List Char)) := by
  set cs : List Char := bytes.map charsetChar with hcs
  have hlen : cs.length = 16 := by rw [hcs, List.length_map, h]
  have hsub : ∀ c ∈ cs.take 4 ++ (cs.drop 4).take 4 ++ (cs.drop 8).take 4,
      c ∈ charsetChars := by
    intro c hcmem
    have hin : c ∈ cs := by
      rcases List.mem_append.mp hcmem with hcm | hcm
      · rcases List.mem_append.mp hcm with hcm' | hcm'
        · exact List.mem_of_mem_take hcm'
        · exact List.mem_of_mem_drop (List.mem_of_mem_take hcm')
      · exact List.mem_of_mem_drop (List.mem_of_mem_take hcm)
    rw [hcs] at hin
    rcases List.mem_map.mp hin with ⟨b, _, hb⟩
    rw [← hb]
    exact charsetChar_mem b
  refine ⟨cs.take 4, (cs.drop 4).take 4, (cs.drop 8).take 4, ?_, ?_, ?_, ?_, ?_, ?_⟩
  · simp [generateCardCode, codeCharsOf, hcs, List.append_assoc]
  · simp [List.length_take, hlen]
  · simp [List.length_take, List.length_drop, hlen]
  · simp [List.length_take, List.length_drop, hlen]
  · intro c hc
    apply hsub
    simpa [List.append_assoc] using hc
  · intro c hc
    apply charsetChars_no_ambiguous
    apply hsub
    simpa [List.append_assoc] using hc

/-- Witness for C3 (amended) at the all-zero byte input. -/
theorem generateCardCode_quartets_charset_witness :
    (List.replicate 16 (0 : Nat)).length = 16 ∧
    ∃ q1 q2 q3 : List Char,
      (generateCardCode (List.replicate 16 0)).data
        = ['G', 'I', 'F', 'T', '-'] ++ q1 ++ ['-'] ++ q2 ++ ['-'] ++ q3 ∧
      q1.length = 4 ∧ q2.length = 4 ∧ q3.length = 4 ∧
      (∀ c ∈ q1 ++ q2 ++ q3, c ∈ charsetChars) ∧
      (∀ c ∈ q1 ++ q2 ++ q3, c ∉ (['O', '0', 'I', '1', 'L'] : List Char)) :=
  ⟨by decide, generateCardCode_quartets_charset (List.replicate 16 0) (by decide)⟩

/-! ## C5 — treasury balance formula and oversell guard -/

/-- Claim C5: on successful LND reads, `computeTreasuryBalance` yields
(Lightning local + on-chain confirmed) minus the sum of `btc_amount_sats`
over cards in state `active` or `funding`; when that quantity is negative it
returns `ErrInsufficientBalance` instead of the value and logs at error
severity. -/
theorem computeTreasuryBalance_formula_and_guard (cb : ChannelBalance)
    (wb : WalletBalance) (cards : List Card) :
    (0 ≤ cb.localSats + wb.confirmedSats -
        ((cards.filter fun c =>
            c.status = CardStatus.active ∨ c.status = CardStatus.funding).map
          fun c => c.btcAmountSats).sum →
      computeTreasuryBalance (.ok cb) (.ok wb) cards =
        (.ok (cb.localSats + wb.confirmedSats -
          ((cards.filter fun c =>
              c.status = CardStatus.active ∨ c.status = CardStatus.funding).map
            fun c => c.btcAmountSats).sum), [])) ∧
    (cb.localSats + wb.confirmedSats -
        ((cards.filter fun c =>
            c.status = CardStatus.active ∨ c.status = CardStatus.funding).map
          fun c => c.btcAmountSats).sum < 0 →
      (computeTreasuryBalance (.ok cb) (.ok wb) cards).1 =
          .error GoError.insufficientBalance ∧
      ∃ entry ∈ (computeTreasuryBalance (.ok cb) (.ok wb) cards).2,
        entry.level = LogLevel.error) := by
  set reservedSum : Int :=
    ((cards.filter fun c =>
        c.status = CardStatus.active ∨ c.status = CardStatus.funding).map
      fun c => c.btcAmountSats).sum with hres
  have hreduce : computeTreasuryBalance (.ok cb) (.ok wb) cards =
      (if cb.localSats + wb.confirmedSats - reservedSum < 0 then
        (.error .insufficientBalance,
          [{ level := .error, msg := "treasury oversold: available balance is negative" }])
      else
        (.ok (cb.localSats + wb.confirmedSats - reservedSum), [])) := rfl
  constructor
  · intro hnn
    rw [hreduce, if_neg (not_lt.mpr hnn)]
  · intro hneg
    rw [hreduce, if_pos hneg]
    exact ⟨rfl, ⟨_, List.mem_singleton_self _, rfl⟩⟩

/-- Witness for C5: a healthy treasury returns the difference, an oversold one
(100 treasury sats against a 150-sat active card) errors with an error log. -/
theorem computeTreasuryBalance_formula_and_guard_witness :
    computeTreasuryBalance (.ok ⟨100, 0⟩) (.ok ⟨50, 0, 50⟩)
        [{ id := "c1", userID := none, purchaseEmail := "e", ownerEmail := "e",
           code := "GIFT-AAAA-AAAA-AAAA", btcAmountSats := 40,
           fiatAmountCents := 100, fiatCurrency := "USD",
           purchasePriceCents := 105, status := CardStatus.active,
           createdAt := 0, fundedAt := none, redeemedAt := none }] =
      (.ok 110, []) ∧
    (computeTreasuryBalance (.ok ⟨100, 0⟩) (.ok ⟨0, 0, 0⟩)
        [{ id := "c1", userID := none, purchaseEmail := "e", ownerEmail := "e",
           code := "GIFT-AAAA-AAAA-AAAA", btcAmountSats := 150,
           fiatAmountCents := 100, fiatCurrency := "USD",
           purchasePriceCents := 105, status := CardStatus.active,
           createdAt := 0, fundedAt := none, redeemedAt := none }]).1 =
      .error GoError.insufficientBalance := by
  constructor
  · have h := (computeTreasuryBalance_formula_and_guard ⟨100, 0⟩ ⟨50, 0, 50⟩
      [{ id := "c1", userID := none, purchaseEmail := "e", ownerEmail := "e",
         code := "GIFT-AAAA-AAAA-AAAA", btcAmountSats := 40,
         fiatAmountCents := 100, fiatCurrency := "USD",
         purchasePriceCents := 105, status := CardStatus.active,
         createdAt := 0, fundedAt := none, redeemedAt := none }]).1 (by decide)
    simpa using h
  · have h := (computeTreasuryBalance_formula_and_guard ⟨100, 0⟩ ⟨0, 0, 0⟩
      [{ id := "c1", userID := none, purchaseEmail := "e", ownerEmail := "e",
         code := "GIFT-AAAA-AAAA-AAAA", btcAmountSats := 150,
         fiatAmountCents := 100, fiatCurrency := "USD",
         purchasePriceCents := 105, status := CardStatus.active,
         createdAt := 0, fundedAt := none, redeemedAt := none }]).2 (by decide)
    exact h.1

/-! ## C10 — cache miss semantics -/

/-- Claim C10: `cache.Get` answers `("", nil)` for an absent key, exactly the
answer for a stored empty string, and `GetTreasuryAvailableBalance` therefore
treats an empty cached string as a miss and recomputes. -/
theorem cacheGet_missing_key_empty_nil (store : CacheStore) (k : String)
    (h : store k = none) (store2 : CacheStore)
    (h2 : store2 treasuryAvailableCacheKey = some "")
    (channelBal : Except String ChannelBalance) (walletBal : Except String WalletBalance)
    (cards : List Card) :
    cacheGet (redisGet store k) = ("", none) ∧
    cacheGet (redisGet (store.insert k "") k) = cacheGet (redisGet (store.erase k) k) ∧
    getTreasuryAvailableBalance store2 channelBal walletBal cards =
      treasuryComputeAndCache store2 channelBal walletBal cards := by
  refine ⟨?_, ?_, ?_⟩
  · simp [redisGet, cacheGet, h]
  · simp [redisGet, cacheGet, CacheStore.insert, CacheStore.erase]
  · simp [getTreasuryAvailableBalance, redisGet, cacheGet, h2]

/-- Witness for C10 at concrete stores. -/
theorem cacheGet_missing_key_empty_nil_witness :
    cacheGet (redisGet (fun _ => none) "k1") = ("", none) ∧
    cacheGet (redisGet (CacheStore.insert (fun _ => none) "k1" "") "k1") =
      cacheGet (redisGet (CacheStore.erase (fun _ => none) "k1") "k1") ∧
    getTreasuryAvailableBalance
        (fun k => if k = treasuryAvailableCacheKey then some "" else none)
        (.ok ⟨100, 0⟩) (.ok ⟨50, 0, 50⟩) [] =
      treasuryComputeAndCache
        (fun k => if k = treasuryAvailableCacheKey then some "" else none)
        (.ok ⟨100, 0⟩) (.ok ⟨50, 0, 50⟩) [] :=
  cacheGet_missing_key_empty_nil (fun _ => none) "k1" rfl
    (fun k => if k = treasuryAvailableCacheKey then some "" else none)
    (by simp) (.ok ⟨100, 0⟩) (.ok ⟨50, 0, 50⟩) []

/-! ## C8 — ack discipline of the stream dispatcher -/

/-- Claim C8: for a delivered (pending) message, `handleMessage` acknowledges
and drops a message without a `data` field while logging an error; leaves a
message whose handler fails unacknowledged and still pending; and acknowledges
a message whose handler succeeds. -/
theorem handleMessage_ack_discipline (g : GroupState) (msg : XMessage)
    (handler : String → String → Except String Unit)
    (hmem : msg.id ∈ g.pending) (hnodup : g.pending.Nodup)
    (hnotacked : msg.id ∉ g.acked) :
    (msg.find "data" = none →
      msg.id ∉ (handleMessage g msg handler).1.pending ∧
      msg.id ∈ (handleMessage g msg handler).1.acked ∧
      ∃ entry ∈ (handleMessage g msg handler).2, entry.level = LogLevel.error) ∧
    (∀ s e, msg.find "data" = some (.str s) → handler msg.id s = .error e →
      (handleMessage g msg handler).1 = g ∧
      msg.id ∈ (handleMessage g msg handler).1.pending ∧
      msg.id ∉ (handleMessage g msg handler).1.acked) ∧
    (∀ s, msg.find "data" = some (.str s) → handler msg.id s = .ok () →
      msg.id ∉ (handleMessage g msg handler).1.pending ∧
      msg.id ∈ (handleMessage g msg handler).1.acked) := by
  refine ⟨?_, ?_, ?_⟩
  · intro hdata
    rw [handleMessage, hdata]
    exact ⟨hnodup.not_mem_erase, List.mem_append_right _ (List.mem_singleton_self _),
      ⟨_, List.mem_singleton_self _, rfl⟩⟩
  · intro s e hdata herr
    rw [handleMessage, hdata]
    simp only [herr]
    exact ⟨trivial, hmem, hnotacked⟩
  · intro s hdata hok
    rw [handleMessage, hdata]
    simp only [hok]
    exact ⟨hnodup.not_mem_erase, List.mem_append_right _ (List.mem_singleton_self _)⟩

/-- Witness for C8: a pending message without a `data` field is acked. -/
theorem handleMessage_ack_discipline_witness :
    "m1" ∉ (handleMessage ⟨["m1"], []⟩ ⟨"m1", []⟩ (fun _ _ => .ok ())).1.pending ∧
    "m1" ∈ (handleMessage ⟨["m1"], []⟩ ⟨"m1", []⟩ (fun _ _ => .ok ())).1.acked ∧
    ∃ entry ∈ (handleMessage ⟨["m1"], []⟩ ⟨"m1", []⟩ (fun _ _ => .ok ())).2,
      entry.level = LogLevel.error :=
  (handleMessage_ack_discipline ⟨["m1"], []⟩ ⟨"m1", []⟩ (fun _ _ => .ok ())
    (by decide) (by decide) (by decide)).1 (by decide)

/-! ## C9 — JSON round trip for the stream messages -/

theorem JObject.find_cons_ne (k : String) (v : JValue) (o : JObject) (key : String)
    (h : k ≠ key) : JObject.find ((k, v) :: o) key = JObject.find o key := by
  simp [JObject.find, h]

theorem JObject.find_filter_ne (o : JObject) (k : String) :
    JObject.find (o.filter fun p => p.1 ≠ k) k = none := by
  induction o with
  | nil => rfl
  | cons hd tl ih =>
    by_cases hh : hd.1 = k
    · simpa [List.filter, hh] using ih
    · simpa [List.filter, hh, JObject.find] using ih

theorem getStringField_cons_ne (k : String) (v : JValue) (o : JObject) (key : String)
    (h : k ≠ key) : getStringField ((k, v) :: o) key = getStringField o key := by
  rw [getStringField, getStringField, JObject.find_cons_ne k v o key h]

theorem getIntField_cons_ne (k : String) (v : JValue) (o : JObject) (key : String)
    (h : k ≠ key) : getIntField ((k, v) :: o) key = getIntField o key := by
  rw [getIntField, getIntField, JObject.find_cons_ne k v o key h]

/-- Serialization followed by deserialization restores a valid `FundCard`
message. -/
theorem fromJSONFundCard_toJSON (m : FundCardMessage) (h : m.validate = .ok ()) :
    fromJSONFundCard m.toJSON = .ok m := by
  have hred : fromJSONFundCard m.toJSON =
      (match m.validate with
        | .error e => .error e
        | .ok _ => .ok { cardID := m.cardID, fiatAmountCents := m.fiatAmountCents,
                         fiatCurrency := m.fiatCurrency }) := rfl
  rw [hred, h]

/-- Serialization followed by deserialization restores a valid
`MonitorTransaction` message. -/
theorem fromJSONMonitorTx_toJSON (m : MonitorTransactionMessage) (h : m.validate = .ok ()) :
    fromJSONMonitorTx m.toJSON = .ok m := by
  have hred : fromJSONMonitorTx m.toJSON =
      (match m.validate with
        | .error e => .error e
        | .ok _ => .ok { cardID := m.cardID, txHash := m.txHash,
                         expectedAmountSats := m.expectedAmountSats,
                         destinationAddr := m.destinationAddr }) := rfl
  rw [hred, h]

/-- An unknown leading field is ignored by `FromJSONFundCard`. -/
theorem fromJSONFundCard_cons_unknown (k : String) (v : JValue) (o : JObject)
    (h1 : k ≠ "card_id") (h2 : k ≠ "fiat_amount_cents") (h3 : k ≠ "fiat_currency") :
    fromJSONFundCard ((k, v) :: o) = fromJSONFundCard o := by
  rw [fromJSONFundCard, fromJSONFundCard,
    getStringField_cons_ne k v o _ h1,
    getIntField_cons_ne k v o _ h2,
    getStringField_cons_ne k v o _ h3]

/-- An unknown leading field is ignored by `FromJSONMonitorTx`. -/
theorem fromJSONMonitorTx_cons_unknown (k : String) (v : JValue) (o : JObject)
    (h1 : k ≠ "card_id") (h2 : k ≠ "tx_hash") (h3 : k ≠ "expected_amount_sats")
    (h4 : k ≠ "destination_addr") :
    fromJSONMonitorTx ((k, v) :: o) = fromJSONMonitorTx o := by
  rw [fromJSONMonitorTx, fromJSONMonitorTx,
    getStringField_cons_ne k v o _ h1,
    getStringField_cons_ne k v o _ h2,
    getIntField_cons_ne k v o _ h3,
    getStringField_cons_ne k v o _ h4]

/-- An object without a `card_id` key never deserializes to a `FundCard`
message: the zero value fails validation. -/
theorem fromJSONFundCard_missing_cardID (o : JObject) (h : JObject.find o "card_id" = none) :
    (fromJSONFundCard o).isOk = false := by
  rw [fromJSONFundCard, show getStringField o "card_id" = .ok "" by
    rw [getStringField, h]]
  rcases getIntField o "fiat_amount_cents" with e | cents
  · rfl
  rcases getStringField o "fiat_currency" with e | currency
  · rfl
  simp [FundCardMessage.validate, Except.isOk, Except.toBool]

/-- An object without a `fiat_amount_cents` key never deserializes: the zero
value fails the positivity check. -/
theorem fromJSONFundCard_missing_cents (o : JObject)
    (h : JObject.find o "fiat_amount_cents" = none) :
    (fromJSONFundCard o).isOk = false := by
  rw [fromJSONFundCard, show getIntField o "fiat_amount_cents" = .ok 0 by
    rw [getIntField, h]]
  rcases getStringField o "card_id" with e | cardID
  · rfl
  rcases getStringField o "fiat_currency" with e | currency
  · rfl
  by_cases hc : cardID = "" <;> simp [FundCardMessage.validate, hc, Except.isOk, Except.toBool]

/-- An object without a `fiat_currency` key never deserializes: the zero value
fails the required-currency check. -/
theorem fromJSONFundCard_missing_currency (o : JObject)
    (h : JObject.find o "fiat_currency" = none) :
    (fromJSONFundCard o).isOk = false := by
  rw [fromJSONFundCard, show getStringField o "fiat_currency" = .ok "" by
    rw [getStringField, h]]
  rcases getStringField o "card_id" with e | cardID
  · rfl
  rcases getIntField o "fiat_amount_cents" with e | cents
  · rfl
  by_cases hc : cardID = ""
  · simp [FundCardMessage.validate, hc, Except.isOk, Except.toBool]
  · by_cases hn : cents ≤ 0 <;> simp [FundCardMessage.validate, hc, hn, Except.isOk, Except.toBool]

/-- An object without a `card_id` key never deserializes to a
`MonitorTransaction` message. -/
theorem fromJSONMonitorTx_missing_cardID (o : JObject)
    (h : JObject.find o "card_id" = none) :
    (fromJSONMonitorTx o).isOk = false := by
  rw [fromJSONMonitorTx, show getStringField o "card_id" = .ok "" by
    rw [getStringField, h]]
  rcases getStringField o "tx_hash" with e | txHash
  · rfl
  rcases getIntField o "expected_amount_sats" with e | sats
  · rfl
  rcases getStringField o "destination_addr" with e | dest
  · rfl
  simp only [MonitorTransactionMessage.validate]
  split_ifs <;> simp_all [Except.isOk, Except.toBool]

/-- An object without a `tx_hash` key never deserializes to a
`MonitorTransaction` message. -/
theorem fromJSONMonitorTx_missing_txHash (o : JObject)
    (h : JObject.find o "tx_hash" = none) :
    (fromJSONMonitorTx o).isOk = false := by
  rw [fromJSONMonitorTx, show getStringField o "tx_hash" = .ok "" by
    rw [getStringField, h]]
  rcases getStringField o "card_id" with e | cardID
  · rfl
  rcases getIntField o "expected_amount_sats" with e | sats
  · rfl
  rcases getStringField o "destination_addr" with e | dest
  · rfl
  simp only [MonitorTransactionMessage.validate]
  split_ifs <;> simp_all [Except.isOk, Except.toBool]

/-- An object without an `expected_amount_sats` key never deserializes to a
`MonitorTransaction` message. -/
theorem fromJSONMonitorTx_missing_sats (o : JObject)
    (h : JObject.find o "expected_amount_sats" = none) :
    (fromJSONMonitorTx o).isOk = false := by
  rw [fromJSONMonitorTx, show getIntField o "expected_amount_sats" = .ok 0 by
    rw [getIntField, h]]
  rcases getStringField o "card_id" with e | cardID
  · rfl
  rcases getStringField o "tx_hash" with e | txHash
  · rfl
  rcases getStringField o "destination_addr" with e | dest
  · rfl
  simp only [MonitorTransactionMessage.validate]
  split_ifs <;> simp_all [Except.isOk, Except.toBool]

/-- An object without a `destination_addr` key never deserializes to a
`MonitorTransaction` message. -/
theorem fromJSONMonitorTx_missing_dest (o : JObject)
    (h : JObject.find o "destination_addr" = none) :
    (fromJSONMonitorTx o).isOk = false := by
  rw [fromJSONMonitorTx, show getStringField o "destination_addr" = .ok "" by
    rw [getStringField, h]]
  rcases getStringField o "card_id" with e | cardID
  · rfl
  rcases getStringField o "tx_hash" with e | txHash
  · rfl
  rcases getIntField o "expected_amount_sats" with e | sats
  · rfl
  simp only [MonitorTransactionMessage.validate]
  split_ifs <;> simp_all [Except.isOk, Except.toBool]

/-- Claim C9: serialize-then-deserialize is the identity on valid `FundCard`
and `MonitorTransaction` messages; an unknown field is ignored; dropping any
required field makes deserialization reject. -/
theorem message_json_roundtrip (m1 : FundCardMessage) (m2 : MonitorTransactionMessage)
    (h1 : m1.validate = .ok ()) (h2 : m2.validate = .ok ())
    (k : String) (v : JValue)
    (hk1 : k ∉ (["card_id", "fiat_amount_cents", "fiat_currency"] : List String))
    (hk2 : k ∉ (["card_id", "tx_hash", "expected_amount_sats", "destination_addr"] :
      List String)) :
    fromJSONFundCard m1.toJSON = .ok m1 ∧
    fromJSONMonitorTx m2.toJSON = .ok m2 ∧
    fromJSONFundCard ((k, v) :: m1.toJSON) = .ok m1 ∧
    fromJSONMonitorTx ((k, v) :: m2.toJSON) = .ok m2 ∧
    (fromJSONFundCard (m1.toJSON.filter fun p => p.1 ≠ "card_id")).isOk = false ∧
    (fromJSONFundCard (m1.toJSON.filter fun p => p.1 ≠ "fiat_amount_cents")).isOk = false ∧
    (fromJSONFundCard (m1.toJSON.filter fun p => p.1 ≠ "fiat_currency")).isOk = false ∧
    (fromJSONMonitorTx (m2.toJSON.filter fun p => p.1 ≠ "card_id")).isOk = false ∧
    (fromJSONMonitorTx (m2.toJSON.filter fun p => p.1 ≠ "tx_hash")).isOk = false ∧
    (fromJSONMonitorTx (m2.toJSON.filter fun p => p.1 ≠ "expected_amount_sats")).isOk = false ∧
    (fromJSONMonitorTx (m2.toJSON.filter fun p => p.1 ≠ "destination_addr")).isOk = false := by
  simp only [List.mem_cons, List.not_mem_nil, or_false, not_or] at hk1 hk2
  obtain ⟨hka, hkb, hkc⟩ := hk1
  obtain ⟨hkd, hke, hkf, hkg⟩ := hk2
  refine ⟨fromJSONFundCard_toJSON m1 h1, fromJSONMonitorTx_toJSON m2 h2, ?_, ?_,
    fromJSONFundCard_missing_cardID _ (JObject.find_filter_ne _ _),
    fromJSONFundCard_missing_cents _ (JObject.find_filter_ne _ _),
    fromJSONFundCard_missing_currency _ (JObject.find_filter_ne _ _),
    fromJSONMonitorTx_missing_cardID _ (JObject.find_filter_ne _ _),
    fromJSONMonitorTx_missing_txHash _ (JObject.find_filter_ne _ _),
    fromJSONMonitorTx_missing_sats _ (JObject.find_filter_ne _ _),
    fromJSONMonitorTx_missing_dest _ (JObject.find_filter_ne _ _)⟩
  · rw [fromJSONFundCard_cons_unknown k v _ hka hkb hkc]
    exact fromJSONFundCard_toJSON m1 h1
  · rw [fromJSONMonitorTx_cons_unknown k v _ hkd hke hkf hkg]
    exact fromJSONMonitorTx_toJSON m2 h2

/-- Witness for C9 at concrete valid messages and an unknown `extra` field. -/
theorem message_json_roundtrip_witness :
    fromJSONFundCard (FundCardMessage.toJSON ⟨"c1", 10000, "USD"⟩) =
      .ok ⟨"c1", 10000, "USD"⟩ ∧
    fromJSONMonitorTx (MonitorTransactionMessage.toJSON
        ⟨"c1", "aaaaaaaaaaaaaaaaaaaaaaaaaaaaaaaaaaaaaaaaaaaaaaaaaaaaaaaaaaaaaaaa",
         50000, "tb1qw508d6qejxtdg4y5r3zarvary0c5xw7kxpjzsx"⟩) =
      .ok ⟨"c1", "aaaaaaaaaaaaaaaaaaaaaaaaaaaaaaaaaaaaaaaaaaaaaaaaaaaaaaaaaaaaaaaa",
           50000, "tb1qw508d6qejxtdg4y5r3zarvary0c5xw7kxpjzsx"⟩ ∧
    fromJSONFundCard (("extra", .str "x") :: FundCardMessage.toJSON ⟨"c1", 10000, "USD"⟩) =
      .ok ⟨"c1", 10000, "USD"⟩ ∧
    (fromJSONFundCard ((FundCardMessage.toJSON ⟨"c1", 10000, "USD"⟩).filter
      fun p => p.1 ≠ "card_id")).isOk = false := by
  have h := message_json_roundtrip ⟨"c1", 10000, "USD"⟩
    ⟨"c1", "aaaaaaaaaaaaaaaaaaaaaaaaaaaaaaaaaaaaaaaaaaaaaaaaaaaaaaaaaaaaaaaa",
     50000, "tb1qw508d6qejxtdg4y5r3zarvary0c5xw7kxpjzsx"⟩
    rfl rfl "extra" (.str "x") (by decide) (by decide)
  exact ⟨h.1, h.2.1, h.2.2.1, h.2.2.2.2.1⟩

/-! ## C6 — redemption precondition failures have no effect -/

/-- Claim C6: with the per-card lock free, a redeem request against a card
that is not `active` or whose balance is below the requested amount fails with
the corresponding precondition error (`ErrCardNotActive` /
`ErrInsufficientFunds`) before any payment attempt, transaction insert, card
update, monitor publish or cache change. -/
theorem redeemCard_precondition_failure_no_effects
    (oracle : LndOracle) (network : String) (maxFeeSats : Int) (now : Nat)
    (freshTxID : String) (w : World) (req : RedeemCardRequest) (card : Card)
    (hlock : w.cache (cardLockKey req.code) = none)
    (hvalid : validateRedeemRequest req = .ok ())
    (hcard : getCardByCode w.cards req.code = .ok card)
    (hbad : card.status ≠ CardStatus.active ∨ card.btcAmountSats < req.amountSats) :
    (redeemCard oracle network maxFeeSats now freshTxID w req).1 =
      .error (if card.status = CardStatus.active then GoError.insufficientFunds
              else GoError.cardNotActive) ∧
    ((redeemCard oracle network maxFeeSats now freshTxID w req).2).cards = w.cards ∧
    ((redeemCard oracle network maxFeeSats now freshTxID w req).2).txRows = w.txRows ∧
    ((redeemCard oracle network maxFeeSats now freshTxID w req).2).payAttempts =
      w.payAttempts ∧
    ((redeemCard oracle network maxFeeSats now freshTxID w req).2).monitorMsgs =
      w.monitorMsgs ∧
    ((redeemCard oracle network maxFeeSats now freshTxID w req).2).cache = w.cache := by
  have hsetnx : cacheSetNX w.cache (cardLockKey req.code) "locked" =
      (true, CacheStore.insert w.cache (cardLockKey req.code) "locked") := by
    rw [cacheSetNX, hlock]
  have hval : validateCardForRedemption w.cards req.code req.amountSats =
      .error (if card.status = CardStatus.active then GoError.insufficientFunds
              else GoError.cardNotActive) := by
    rw [validateCardForRedemption, hcard]
    by_cases hs : card.status = CardStatus.active
    · have hlt : card.btcAmountSats < req.amountSats := by
        rcases hbad with hb | hb
        · exact absurd hs hb
        · exact hb
      simp [hs, hlt]
    · simp [hs]
  simp only [redeemCard, hvalid, hsetnx, hval]
  exact ⟨trivial, trivial, trivial, trivial, trivial, cacheErase_insert _ _ _ hlock⟩

/-- Witness for C6: an active card holding 10 000 sats redeemed for 10 001
sats fails with `ErrInsufficientFunds` and leaves every component of the world
unchanged; the oracle would answer any payment, so only the precondition stops
the flow. -/
theorem redeemCard_precondition_failure_no_effects_witness :
    (redeemCard
        ⟨fun _ => .error "no decode", fun _ _ => .error "no pay",
         fun _ _ _ => .error "no send", fun _ _ => .ok true⟩
        "testnet" 100 1000 "tx1"
        ⟨[{ id := "c1", userID := none, purchaseEmail := "e", ownerEmail := "e",
            code := "GIFT-AAAA-AAAA-AAAA", btcAmountSats := 10000,
            fiatAmountCents := 10000, fiatCurrency := "USD",
            purchasePriceCents := 10500, status := CardStatus.active,
            createdAt := 0, fundedAt := some 1, redeemedAt := none }],
         [], fun _ => none, [], []⟩
        ⟨"GIFT-AAAA-AAAA-AAAA", RedeemCardMethod.lightning, 10001, "", "lninv"⟩).1 =
      .error GoError.insufficientFunds ∧
    ((redeemCard
        ⟨fun _ => .error "no decode", fun _ _ => .error "no pay",
         fun _ _ _ => .error "no send", fun _ _ => .ok true⟩
        "testnet" 100 1000 "tx1"
        ⟨[{ id := "c1", userID := none, purchaseEmail := "e", ownerEmail := "e",
            code := "GIFT-AAAA-AAAA-AAAA", btcAmountSats := 10000,
            fiatAmountCents := 10000, fiatCurrency := "USD",
            purchasePriceCents := 10500, status := CardStatus.active,
            createdAt := 0, fundedAt := some 1, redeemedAt := none }],
         [], fun _ => none, [], []⟩
        ⟨"GIFT-AAAA-AAAA-AAAA", RedeemCardMethod.lightning, 10001, "", "lninv"⟩).2).cards =
      [{ id := "c1", userID := none, purchaseEmail := "e", ownerEmail := "e",
          code := "GIFT-AAAA-AAAA-AAAA", btcAmountSats := 10000,
          fiatAmountCents := 10000, fiatCurrency := "USD",
          purchasePriceCents := 10500, status := CardStatus.active,
          createdAt := 0, fundedAt := some 1, redeemedAt := none }] ∧
    ((redeemCard
        ⟨fun _ => .error "no decode", fun _ _ => .error "no pay",
         fun _ _ _ => .error "no send", fun _ _ => .ok true⟩
        "testnet" 100 1000 "tx1"
        ⟨[{ id := "c1", userID := none, purchaseEmail := "e", ownerEmail := "e",
            code := "GIFT-AAAA-AAAA-AAAA", btcAmountSats := 10000,
            fiatAmountCents := 10000, fiatCurrency := "USD",
            purchasePriceCents := 10500, status := CardStatus.active,
            createdAt := 0, fundedAt := some 1, redeemedAt := none }],
         [], fun _ => none, [], []⟩
        ⟨"GIFT-AAAA-AAAA-AAAA", RedeemCardMethod.lightning, 10001, "", "lninv"⟩).2).payAttempts =
      [] := by
  have h := redeemCard_precondition_failure_no_effects
    ⟨fun _ => .error "no decode", fun _ _ => .error "no pay",
     fun _ _ _ => .error "no send", fun _ _ => .ok true⟩
    "testnet" 100 1000 "tx1"
    ⟨[{ id := "c1", userID := none, purchaseEmail := "e", ownerEmail := "e",
        code := "GIFT-AAAA-AAAA-AAAA", btcAmountSats := 10000,
        fiatAmountCents := 10000, fiatCurrency := "USD",
        purchasePriceCents := 10500, status := CardStatus.active,
        createdAt := 0, fundedAt := some 1, redeemedAt := none }],
     [], fun _ => none, [], []⟩
    ⟨"GIFT-AAAA-AAAA-AAAA", RedeemCardMethod.lightning, 10001, "", "lninv"⟩
    { id := "c1", userID := none, purchaseEmail := "e", ownerEmail := "e",
      code := "GIFT-AAAA-AAAA-AAAA", btcAmountSats := 10000,
      fiatAmountCents := 10000, fiatCurrency := "USD",
      purchasePriceCents := 10500, status := CardStatus.active,
      createdAt := 0, fundedAt := some 1, redeemedAt := none }
    rfl rfl rfl (Or.inr (by decide))
  exact ⟨by simpa using h.1, h.2.1, h.2.2.2.1⟩

/-! ## Funding worker run characterization (helper) -/

/-- Unfolding of `getCardByID` success: the card was found by id. -/
theorem getCardByID_ok {cards : List Card} {id : String} {card : Card}
    (h : getCardByID cards id = .ok card) :
    cards.find? (fun c => c.id = id) = some card := by
  rw [getCardByID] at h
  rcases hf : cards.find? (fun c => c.id = id) with _ | c
  · rw [hf] at h
    exact absurd h (by simp)
  · rw [hf] at h
    have hc : c = card := by simpa using h
    rw [hf, hc]

/-- A successful run of the funding worker: with a valid message, a `created`
card and a positive satoshi amount, `processMessage` acknowledges, activates
the card with the computed satoshis and `funded_at`, and appends the persisted
`fund` transaction row — touching nothing else (in particular not the cache). -/
theorem processMessage_funds_card
    (price : F64) (now : Nat) (fresh : String) (w : World) (data : JObject)
    (msg : FundCardMessage) (card : Card)
    (hdata : fromJSONFundCard data = .ok msg)
    (hcard : getCardByID w.cards msg.cardID = .ok card)
    (hstatus : card.status = CardStatus.created)
    (hpos : 0 < satsFromFiat msg.fiatAmountCents price) :
    processMessage (.ok price) now fresh w data =
      (.ok (), { w with
        cards := w.cards.map fun c =>
          if c.id = card.id then
            { c with status := CardStatus.active,
                     btcAmountSats := satsFromFiat msg.fiatAmountCents price,
                     fundedAt := some now }
          else c,
        txRows := w.txRows ++
          [transactionRepositoryCreateRow
            { id := fresh, cardID := card.id, typ := .fund, redemptionMethod := none,
              txHash := none, paymentHash := none, paymentPreimage := none,
              lightningInvoice := none, fromAddress := none, toAddress := none,
              btcAmountSats := satsFromFiat msg.fiatAmountCents price,
              status := .confirmed, confirmations := 0, createdAt := now,
              broadcastAt := none, confirmedAt := some now }] }) := by
  have hfind := getCardByID_ok hcard
  have hmem : card ∈ w.cards := List.mem_of_find?_eq_some hfind
  have hany1 : (w.cards.any fun c => c.id = card.id) = true :=
    List.any_eq_true.mpr ⟨card, hmem, by simp⟩
  have hupd1 : cardRepositoryUpdate w.cards card.id CardStatus.funding none none none =
      .ok (w.cards.map fun c =>
        if c.id = card.id then { c with status := CardStatus.funding } else c) := by
    rw [cardRepositoryUpdate, if_pos hany1]
    rfl
  have hany2 : ((w.cards.map fun c =>
      if c.id = card.id then { c with status := CardStatus.funding } else c).any
        fun c => c.id = card.id) = true := by
    refine List.any_eq_true.mpr ⟨_, List.mem_map_of_mem _ hmem, ?_⟩
    simp
  have hupd2 : cardRepositoryUpdate
      (w.cards.map fun c =>
        if c.id = card.id then { c with status := CardStatus.funding } else c)
      card.id CardStatus.active (some (satsFromFiat msg.fiatAmountCents price))
      (some now) none =
      .ok ((w.cards.map fun c =>
          if c.id = card.id then { c with status := CardStatus.funding } else c).map
        fun c =>
          if c.id = card.id then
            { c with status := CardStatus.active,
                     btcAmountSats := satsFromFiat msg.fiatAmountCents price,
                     fundedAt := some now }
          else c) := by
    rw [cardRepositoryUpdate, if_pos hany2]
    rfl
  have hfuse : ((w.cards.map fun c =>
      if c.id = card.id then { c with status := CardStatus.funding } else c).map
        fun c =>
          if c.id = card.id then
            { c with status := CardStatus.active,
                     btcAmountSats := satsFromFiat msg.fiatAmountCents price,
                     fundedAt := some now }
          else c) =
      w.cards.map fun c =>
        if c.id = card.id then
          { c with status := CardStatus.active,
                   btcAmountSats := satsFromFiat msg.fiatAmountCents price,
                   fundedAt := some now }
        else c := by
    rw [List.map_map]
    refine List.map_congr_left ?_
    intro c _
    by_cases hc : c.id = card.id <;> simp [hc]
  simp only [processMessage, hdata, hcard, hstatus, hupd1, hupd2]
  rw [if_neg (by simp [hstatus]), if_neg (not_le.mpr hpos)]
  rw [hfuse]

/-- `CardRepository.Update` succeeds for a card present in the table. -/
theorem cardRepositoryUpdate_found (cards : List Card) (card : Card) (hmem : card ∈ cards)
    (st : CardStatus) (sats : Option Int) (f r : Option Nat) :
    cardRepositoryUpdate cards card.id st sats f r =
      .ok (cards.map fun c =>
        if c.id = card.id then
          { c with status := st, btcAmountSats := sats.getD c.btcAmountSats,
                   fundedAt := f <|> c.fundedAt, redeemedAt := r <|> c.redeemedAt }
        else c) := by
  rw [cardRepositoryUpdate, if_pos (List.any_eq_true.mpr ⟨card, hmem, by simp⟩)]

/-! ## Concrete scenario used by the worker claims -/

/-- A freshly created card worth $100, not yet funded. -/
def fundCard0 : Card :=
  { id := "c1", userID := none, purchaseEmail := "e", ownerEmail := "e",
    code := "GIFT-AAAA-AAAA-AAAA", btcAmountSats := 0, fiatAmountCents := 10000,
    fiatCurrency := "USD", purchasePriceCents := 10500, status := CardStatus.created,
    createdAt := 0, fundedAt := none, redeemedAt := none }

/-- The funding message for that card. -/
def fundMsg0 : FundCardMessage := { cardID := "c1", fiatAmountCents := 10000, fiatCurrency := "USD" }

/-- World at funding time: the created card, an empty ledger, and a cache whose
treasury entry says zero sats are available. -/
def fundWorld0 : World :=
  { cards := [fundCard0], txRows := [],
    cache := fun k => if k = treasuryAvailableCacheKey then some "0" else none,
    payAttempts := [], monitorMsgs := [] }

/-- An LND oracle whose Lightning path succeeds. -/
def lnOracle0 : LndOracle :=
  { decodeInvoice := fun _ =>
      .ok { destination := "03abc", amountSats := 149253, paymentHash := "ph1",
            expiry := 3600, description := "", isExpired := false },
    payInvoice := fun _ _ =>
      .ok { paymentHash := "ph1", paymentPreimage := "pre1", feeSats := 10,
            status := .succeeded },
    sendOnChain := fun _ _ _ => .error "unused",
    validateAddress := fun _ _ => .ok true }

/-- The funded card, active with 149 253 sats. -/
def activeCard0 : Card :=
  { fundCard0 with status := CardStatus.active, btcAmountSats := 149253,
                   fundedAt := some 1000 }

/-- World at redemption time: the active card and a cached treasury value. -/
def redeemWorld0 : World :=
  { cards := [activeCard0], txRows := [],
    cache := fun k => if k = treasuryAvailableCacheKey then some "149253" else none,
    payAttempts := [], monitorMsgs := [] }

/-- A full-balance Lightning redemption request for that card. -/
def redeemReq0 : RedeemCardRequest :=
  { code := "GIFT-AAAA-AAAA-AAAA", method := RedeemCardMethod.lightning,
    amountSats := 149253, destinationAddress := "", lightningInvoice := "lninv1" }

/-- The payment output `executeLightningPayment` produces against `lnOracle0`. -/
def lightningPay0 : PaymentOutput :=
  { paymentHash := some "ph1", paymentPreimage := some "pre1", txHash := none,
    toAddress := none, invoice := some "lninv1", status := .confirmed,
    confirmedAt := some 2000 }

/-! ## C1 — the funding worker's missing treasury guard -/

/-- Claim C1 (code bug): at a funding message for a `created` $100 card priced
at 67 000, with zero available treasury, the worker acknowledges (returns
success) and activates the card for 149 253 sats. The executable
`processMessage` never touches the Redis key space — the reservation lock is
never acquired, availability is never recomputed and no revert happens; the
guard exists only as a comment block in the source. -/
theorem processMessage_no_treasury_lock_no_revert :
    (processMessage (.ok ⟨67000, 0⟩) 1000 "tx1" fundWorld0 fundMsg0.toJSON).1 = .ok () ∧
    ((processMessage (.ok ⟨67000, 0⟩) 1000 "tx1" fundWorld0 fundMsg0.toJSON).2).cache =
      fundWorld0.cache ∧
    ((processMessage (.ok ⟨67000, 0⟩) 1000 "tx1" fundWorld0 fundMsg0.toJSON).2).cache
      treasuryLockKey = none ∧
    ∃ c ∈ ((processMessage (.ok ⟨67000, 0⟩) 1000 "tx1" fundWorld0 fundMsg0.toJSON).2).cards,
      c.id = "c1" ∧ c.status = CardStatus.active ∧ c.btcAmountSats = 149253 := by
  have hpos : 0 < satsFromFiat 10000 ⟨67000, 0⟩ := by
    rw [satsFromFiat_example]
    norm_num
  have hrun := processMessage_funds_card ⟨67000, 0⟩ 1000 "tx1" fundWorld0 fundMsg0.toJSON
    fundMsg0 fundCard0 rfl rfl rfl hpos
  rw [hrun]
  refine ⟨rfl, rfl, by rfl, activeCard0, ?_, rfl, rfl, rfl⟩
  simp [fundWorld0, fundCard0, activeCard0, fundMsg0, satsFromFiat_example]

/-! ## C7 — satoshi computation, zero-ack, worked example -/

/-- Claim C7 (counterexample): the worker's computed satoshi amount is not
`floor((fiat_amount_cents / 100) / price * 10^8)`. At 201 cents and the
double price 67 000 the binary64 chain lands just below the exact value
(which is exactly 3 000), so the int64 truncation yields 2 999 while the
claimed floor is 3 000. -/
theorem satsFromFiat_below_exact_floor :
    satsFromFiat 201 ⟨67000, 0⟩ = 2999 ∧
    ⌊(((201 : Int) : ℚ) / 100) / 67000 * 100000000⌋ = 3000 ∧
    satsFromFiat 201 ⟨67000, 0⟩ ≠ ⌊(((201 : Int) : ℚ) / 100) / 67000 * 100000000⌋ := by
  have h1 : satsFromFiat 201 ⟨67000, 0⟩ = 2999 := by decide
  have h2 : ⌊(((201 : Int) : ℚ) / 100) / 67000 * 100000000⌋ = 3000 := by
    push_cast
    norm_num
  refine ⟨h1, h2, ?_⟩
  rw [h1, h2]
  decide

/-- Claim C7 (amended): the funding worker computes the satoshi amount as the
int64 truncation of the IEEE-754 double evaluation of
`(fiat_amount_cents / 100) / price * 10^8` — which can land one below the
exact floor — for 10 000 cents at 67 000 the computed amount is 149 253
(binary64 and exact arithmetic agree there); and when the computed amount is
zero for a valid message on a `created` card, `processMessage` returns
success so the message is acknowledged as a permanent failure rather than
retried. -/
theorem processMessage_satoshi_computation
    (now : Nat) (fresh : String) (w : World) (data : JObject)
    (msg : FundCardMessage) (card : Card) (price : F64)
    (hdata : fromJSONFundCard data = .ok msg)
    (hcard : getCardByID w.cards msg.cardID = .ok card)
    (hstatus : card.status = CardStatus.created)
    (hzero : satsFromFiat msg.fiatAmountCents price = 0) :
    satsFromFiat 10000 ⟨67000, 0⟩ = 149253 ∧
    (processMessage (.ok price) now fresh w data).1 = .ok () := by
  refine ⟨satsFromFiat_example, ?_⟩
  have hmem : card ∈ w.cards := List.mem_of_find?_eq_some (getCardByID_ok hcard)
  simp only [processMessage, hdata, hcard,
    cardRepositoryUpdate_found w.cards card hmem CardStatus.funding none none none]
  rw [if_neg (by simp [hstatus]), if_pos (le_of_eq hzero)]

/-- A one-cent funding message, used to exercise the zero-satoshi path. -/
def oneCentMsg : FundCardMessage :=
  { cardID := "c1", fiatAmountCents := 1, fiatCurrency := "USD" }

/-- Witness for C7: a one-cent message at the double price 10^9 computes zero
satoshis and is acknowledged. -/
theorem processMessage_satoshi_computation_witness :
    satsFromFiat 10000 ⟨67000, 0⟩ = 149253 ∧
    (processMessage (.ok ⟨1000000000, 0⟩) 1000 "tx1" fundWorld0
      oneCentMsg.toJSON).1 = .ok () := by
  have hzero : satsFromFiat 1 ⟨1000000000, 0⟩ = 0 := by decide
  exact processMessage_satoshi_computation
    1000 "tx1" fundWorld0 oneCentMsg.toJSON oneCentMsg
    fundCard0 ⟨1000000000, 0⟩ rfl rfl rfl hzero

/-! ## C4 — treasury cache invalidation -/

/-- Claim C4 (code bug): a successful redemption does delete the cached
treasury value, but a successful funding completes with the cache entry still
in place — the funding worker contains no cache call at all, contradicting the
`InvalidateTreasuryCache` doc comment ("call after card funding or
redemption"). -/
theorem treasury_cache_invalidation_asymmetry :
    (processMessage (.ok ⟨67000, 0⟩) 1000 "tx1" fundWorld0 fundMsg0.toJSON).1 = .ok () ∧
    ((processMessage (.ok ⟨67000, 0⟩) 1000 "tx1" fundWorld0 fundMsg0.toJSON).2).cache
      treasuryAvailableCacheKey = some "0" ∧
    (redeemCard lnOracle0 "testnet" 100 2000 "tx2" redeemWorld0 redeemReq0).1.isOk
      = true ∧
    redeemWorld0.cache treasuryAvailableCacheKey = some "149253" ∧
    ((redeemCard lnOracle0 "testnet" 100 2000 "tx2" redeemWorld0 redeemReq0).2).cache
      treasuryAvailableCacheKey = none := by
  have hpos : 0 < satsFromFiat 10000 ⟨67000, 0⟩ := by
    rw [satsFromFiat_example]
    norm_num
  have hrun := processMessage_funds_card ⟨67000, 0⟩ 1000 "tx1" fundWorld0 fundMsg0.toJSON
    fundMsg0 fundCard0 rfl rfl rfl hpos
  rw [hrun]
  exact ⟨rfl, by rfl, by decide, by rfl, by decide⟩

/-! ## C2 — the persisted redeem row loses the Lightning fields -/

/-- Claim C2 (code bug): a successful Lightning redemption builds an in-memory
record carrying `redemption_method`, `payment_hash`, `payment_preimage` and
`lightning_invoice`, but `TransactionRepository.Create` omits those four
columns from its INSERT, so the single persisted `redeem` row stores NULL for
all of them (and NULL `tx_hash` as well) — neither field group is populated,
violating the exactly-one-group invariant. -/
theorem redeemCard_lightning_row_loses_payment_fields :
    (executePayment lnOracle0 "testnet" 100 2000 redeemReq0).1 = .ok lightningPay0 ∧
    (recordRedemptionTransaction "tx2" "c1" redeemReq0 lightningPay0 2000).redemptionMethod
      = some "lightning" ∧
    (recordRedemptionTransaction "tx2" "c1" redeemReq0 lightningPay0 2000).paymentHash
      = some "ph1" ∧
    (recordRedemptionTransaction "tx2" "c1" redeemReq0 lightningPay0 2000).paymentPreimage
      = some "pre1" ∧
    (recordRedemptionTransaction "tx2" "c1" redeemReq0 lightningPay0 2000).lightningInvoice
      = some "lninv1" ∧
    (recordRedemptionTransaction "tx2" "c1" redeemReq0 lightningPay0 2000).txHash = none ∧
    (redeemCard lnOracle0 "testnet" 100 2000 "tx2" redeemWorld0 redeemReq0).1.isOk
      = true ∧
    (((redeemCard lnOracle0 "testnet" 100 2000 "tx2" redeemWorld0 redeemReq0).2).txRows.map
      fun r => (r.redemptionMethod, r.paymentHash, r.paymentPreimage,
        r.lightningInvoice, r.txHash)) = [(none, none, none, none, none)] := by
  refine ⟨by rfl, by decide, by decide, by decide, by decide, by decide, by decide,
    by decide⟩

end BtcGiftcard
